import Mathlib

/-!
Verification of the lookup-cache and rate/abuse-tracking core of the
scryfall-bot-signal repository, as a shallow embedding in Lean 4.

The embedding covers:
* `src/db/cache.py`   — expiring key-value cache over SQLite
  (`get_cached`, `set_cached`, `purge_expired`, `search_cache`);
* `src/db/usage.py`   — usage ledger and ban registry
  (`log_usage`, `is_banned`, `get_user_lookup_count`,
  `get_suspicious_users`, `get_usage_log`);
* `src/bot/alerts.py` — suspicious-activity monitor (`check_and_alert`);
* `src/bot/scryfall.py` — cache-fronted resolver
  (`get_card_by_name`, `get_rulings`);
* `src/bot/command.py` — the per-message handler (`MTGCommand.handle`).

Modelling conventions:
* timestamps are `Nat` seconds; Python `now - t < bound` comparisons agree
  with truncated `Nat` subtraction in every case used here (when `now < t`
  the Python value is negative and the Nat value is `0`; both fall on the
  same side of the positive bounds involved);
* a SQLite table is a `List` of rows in rowid (insertion) order;
  `INSERT OR REPLACE` on a keyed table removes the old row and appends the
  new one at the end, which is SQLite's rowid behaviour;
* a JSON object payload is an association list `List (String × String)`
  with opaque string values; Python dict truthiness (`if cached:`) is
  `¬ isEmpty`, and `json.dumps`/`json.loads` round-trip is the identity;
* Python `str.strip`/`str.lower` are modelled on their ASCII fragment
  (`pyStrip`, `pyLower`), which is all the code exercises;
* SQL `LIKE` is modelled with SQLite's documented semantics: `%` matches
  any sequence, `_` any single character, and plain characters compare
  ASCII-case-insensitively (`likeMatch`).
-/

/-! ## Data model: cache (`src/db/cache.py`) -/

/-- A cached JSON object, as an association list with opaque values.
The empty object `{}` (the falsy dict) is `[]`. -/
abbrev Payload : Type := List (String × String)

/-- One row of the `card_cache` table: `(cache_key, data, cached_at)`. -/
structure CacheRow where
  cache_key : String
  data : Payload
  cached_at : Nat
  deriving DecidableEq

/-- `CACHE_TTL_SECONDS = 86400` from `src/db/cache.py`. -/
def CACHE_TTL_SECONDS : Nat := 86400

/-- The `card_cache` table, rows in rowid (insertion) order. -/
abbrev CacheStore : Type := List CacheRow

/-- `SELECT ... WHERE cache_key = ?` on a PRIMARY KEY column: the unique
matching row, if any (`List.find?` since the key is unique). -/
def findRow (store : CacheStore) (key : String) : Option CacheRow :=
  List.find? (fun r => r.cache_key == key) store

/-- `get_cached` (`src/db/cache.py:35-52`): return the cached payload if the
row exists and `time.time() - cached_at > CACHE_TTL_SECONDS` does not hold;
a pure read — the row itself is not touched. -/
def get_cached (store : CacheStore) (key : String) (now : Nat) : Option Payload :=
  match findRow store key with
  | none => none
  | some r => if now - r.cached_at > CACHE_TTL_SECONDS then none else some r.data

/-- `set_cached` (`src/db/cache.py:55-66`): `INSERT OR REPLACE` — the old row
for the key (if any) is deleted and the fresh row is appended with
`cached_at = now`. -/
def set_cached (store : CacheStore) (key : String) (data : Payload) (now : Nat) :
    CacheStore :=
  List.filter (fun r => r.cache_key != key) store ++ [⟨key, data, now⟩]

/-- `purge_expired` (`src/db/cache.py:69-79`): `DELETE WHERE cached_at < cutoff`
with `cutoff = int(time.time()) - CACHE_TTL_SECONDS`; returns the surviving
table and `cursor.rowcount`, the number of rows deleted. -/
def purge_expired (store : CacheStore) (now : Nat) : CacheStore × Nat :=
  let cutoff := now - CACHE_TTL_SECONDS
  (List.filter (fun r => !decide (r.cached_at < cutoff)) store,
   List.countP (fun r => decide (r.cached_at < cutoff)) store)

/-! ## Theorems for C2 (set/get round-trip and lazy expiry) -/

/-- **C2.** For every key `k` and value `v`, `set_cached k v` at time `t`
immediately followed by `get_cached k` at time `now` returns `v` as long as
at most `CACHE_TTL_SECONDS` have elapsed; once `now - t > TTL` the read
returns `none`, while the stored row `⟨k, v, t⟩` is still physically present
in the table (reads never delete; only a purge does). -/
theorem cache_set_get_ttl (store : CacheStore) (k : String) (v : Payload)
    (t now : Nat) :
    (now - t ≤ CACHE_TTL_SECONDS →
      get_cached (set_cached store k v t) k now = some v) ∧
    (CACHE_TTL_SECONDS < now - t →
      get_cached (set_cached store k v t) k now = none ∧
      findRow (set_cached store k v t) k = some ⟨k, v, t⟩) := by
  have hfind : findRow (set_cached store k v t) k = some ⟨k, v, t⟩ := by
    unfold findRow set_cached
    induction store with
    | nil => simp
    | cons r rs ih =>
      by_cases hk : r.cache_key = k
      · simp [List.filter_cons, hk, ih]
      · simp [List.filter_cons, hk, List.find?, ih]
  constructor
  · intro h
    unfold get_cached
    rw [hfind]
    simp only [Option.some.injEq]
    rw [if_neg (by omega)]
  · intro h
    refine ⟨?_, hfind⟩
    unfold get_cached
    rw [hfind]
    simp only []
    rw [if_pos (by omega)]

/-- Witness for `cache_set_get_ttl`: concrete store, both branches. -/
theorem cache_set_get_ttl_witness :
    get_cached (set_cached [] "named:bolt::" [("name", "Bolt")] 100) "named:bolt::" 200
      = some [("name", "Bolt")] ∧
    get_cached (set_cached [] "named:bolt::" [("name", "Bolt")] 100) "named:bolt::" 90000
      = none := by
  constructor
  · exact (cache_set_get_ttl [] "named:bolt::" [("name", "Bolt")] 100 200).1 (by decide)
  · exact ((cache_set_get_ttl [] "named:bolt::" [("name", "Bolt")] 100 90000).2
      (by decide)).1

/-! ## Theorems for C6 (purge_expired exactness and idempotence) -/

/-- **C6.** `purge_expired` keeps exactly the rows with
`¬ (cached_at < now - TTL)` (every non-expired row unchanged, every expired
row gone), returns the number of deleted rows (kept + deleted = total), and
a second call under no further expiry deletes nothing and returns `0`. -/
theorem purge_expired_exact (store : CacheStore) (now now₂ : Nat) :
    (∀ r : CacheRow, r ∈ (purge_expired store now).1 ↔
      r ∈ store ∧ ¬ r.cached_at < now - CACHE_TTL_SECONDS) ∧
    (purge_expired store now).2 =
      (List.filter (fun r => decide (r.cached_at < now - CACHE_TTL_SECONDS)) store).length ∧
    (purge_expired store now).2 + (purge_expired store now).1.length = store.length ∧
    ((∀ r ∈ (purge_expired store now).1, ¬ r.cached_at < now₂ - CACHE_TTL_SECONDS) →
      (purge_expired (purge_expired store now).1 now₂).2 = 0 ∧
      (purge_expired (purge_expired store now).1 now₂).1 = (purge_expired store now).1) := by
  refine ⟨?_, ?_, ?_, ?_⟩
  · intro r
    simp [purge_expired, List.mem_filter]
  · simp [purge_expired, List.countP_eq_length_filter]
  · simp only [purge_expired]
    rw [List.countP_eq_length_filter]
    have := List.length_eq_length_filter_add
      (l := store) (fun r => decide (r.cached_at < now - CACHE_TTL_SECONDS))
    simp only [Bool.not_eq_true', decide_eq_false_iff_not] at this
    omega
  · intro h
    constructor
    · show List.countP _ _ = 0
      rw [List.countP_eq_zero]
      intro r hr
      simpa using h r hr
    · show List.filter _ _ = _
      rw [List.filter_eq_self]
      intro r hr
      simpa using h r hr

/-- Witness for `purge_expired_exact`: a two-row store at `now = 100000`,
one expired row; the second sweep removes nothing. -/
theorem purge_expired_exact_witness :
    (purge_expired [⟨"old", [], 10⟩, ⟨"new", [], 99999⟩] 100000).2 = 1 ∧
    (purge_expired (purge_expired [⟨"old", [], 10⟩, ⟨"new", [], 99999⟩] 100000).1 100000).2
      = 0 := by
  refine ⟨by decide, ?_⟩
  exact ((purge_expired_exact [⟨"old", [], 10⟩, ⟨"new", [], 99999⟩] 100000 100000).2.2.2
    (by decide)).1

/-! ## Data model: usage ledger (`src/db/usage.py`) -/

/-- One row of the `usage_log` table:
`(id AUTOINCREMENT, user_uuid, user_phone, query, timestamp)`. -/
structure UsageRow where
  id : Nat
  user_uuid : String
  user_phone : Option String
  query : String
  timestamp : Nat
  deriving DecidableEq

/-- The `usage_log` table, rows in rowid (= `id`, insertion) order. -/
abbrev UsageLedger : Type := List UsageRow

/-- `SUSPICIOUS_THRESHOLD = 20` from `src/db/usage.py`. -/
def SUSPICIOUS_THRESHOLD : Nat := 20

/-- `SUSPICIOUS_WINDOW = 300` (5 minutes) from `src/db/usage.py`. -/
def SUSPICIOUS_WINDOW : Nat := 300

/-- `get_user_lookup_count` (`src/db/usage.py:91-101`):
`SELECT COUNT(*) WHERE user_uuid = ? AND timestamp >= int(now) - window`. -/
def get_user_lookup_count (ledger : UsageLedger) (now : Nat) (u : String)
    (window : Nat) : Nat :=
  (List.filter (fun r => r.user_uuid == u && decide (now - window ≤ r.timestamp))
    ledger).length

/-- SQLite TEXT comparison: memcmp on UTF-8 bytes, i.e. codepoint-lexicographic
order on the character list. `strLtB a b` is `a < b`. -/
def strLtB : List Char → List Char → Bool
  | [], [] => false
  | [], _ :: _ => true
  | _ :: _, [] => false
  | a :: as, b :: bs => if a < b then true else if b < a then false else strLtB as bs

/-- The binary `max` underlying the SQL `MAX` aggregate on TEXT. -/
def maxStr (p q : String) : String := if strLtB p.data q.data then q else p

/-- SQL `MAX(user_phone)` over a group of rows: the largest non-NULL phone
string, or NULL when every phone is NULL. -/
def maxPhone (rows : List UsageRow) : Option String :=
  rows.foldl
    (fun acc r =>
      match r.user_phone, acc with
      | none, a => a
      | some p, none => some p
      | some p, some q => some (maxStr q p))
    none

/-- One result row of `get_suspicious_users`:
`(user_uuid, MAX(user_phone), COUNT(*))`. -/
structure SuspiciousEntry where
  user_uuid : String
  user_phone : Option String
  lookup_count : Nat
  deriving DecidableEq

/-- `ORDER BY lookup_count DESC` as a relation on result rows. -/
def countDesc (a b : SuspiciousEntry) : Prop := b.lookup_count ≤ a.lookup_count

instance : DecidableRel countDesc := fun a b =>
  inferInstanceAs (Decidable (b.lookup_count ≤ a.lookup_count))

instance : IsTotal SuspiciousEntry countDesc :=
  ⟨fun a b => Nat.le_total b.lookup_count a.lookup_count⟩

instance : IsTrans SuspiciousEntry countDesc :=
  ⟨fun _ _ _ hab hbc => Nat.le_trans hbc hab⟩

/-- `get_suspicious_users` (`src/db/usage.py:104-122`):
`SELECT user_uuid, MAX(user_phone), COUNT(*) FROM usage_log WHERE timestamp >=
cutoff GROUP BY user_uuid HAVING COUNT(*) >= threshold ORDER BY lookup_count
DESC`. Groups are formed over the windowed rows, one per distinct user. -/
def get_suspicious_users (ledger : UsageLedger) (now threshold window : Nat) :
    List SuspiciousEntry :=
  let cutoff := now - window
  let inWindow := List.filter (fun r => decide (cutoff ≤ r.timestamp)) ledger
  let users := (inWindow.map (fun r => r.user_uuid)).dedup
  let entries := users.map (fun u =>
    let rows := List.filter (fun r => r.user_uuid == u) inWindow
    ({ user_uuid := u, user_phone := maxPhone rows, lookup_count := rows.length } :
      SuspiciousEntry))
  List.insertionSort countDesc
    (List.filter (fun e => decide (threshold ≤ e.lookup_count)) entries)

/-- Timestamp-descending order with ties in ascending (insertion) `id`
order — the tie-break the spec's words prescribe. The embedded code does
not compute this order (see `tsDescIdDesc`); this relation is used only by
the spec-modelled `mostRecentContact` comparison definition. -/
def tsDescIdAsc (a b : UsageRow) : Prop :=
  b.timestamp < a.timestamp ∨ (a.timestamp = b.timestamp ∧ a.id ≤ b.id)

instance : DecidableRel tsDescIdAsc := fun a b =>
  inferInstanceAs
    (Decidable (b.timestamp < a.timestamp ∨ (a.timestamp = b.timestamp ∧ a.id ≤ b.id)))

instance : IsTotal UsageRow tsDescIdAsc :=
  ⟨fun a b => by unfold tsDescIdAsc; omega⟩

instance : IsTrans UsageRow tsDescIdAsc :=
  ⟨fun a b c hab hbc => by
    unfold tsDescIdAsc at hab hbc ⊢
    omega⟩

/-- The order in which `ORDER BY timestamp DESC` actually emits rows.
The SQL fixes nothing for equal timestamps. On the filtered path
(`WHERE user_uuid = ?`) SQLite satisfies the query by a reverse scan of
`idx_usage_user_ts (user_uuid, timestamp)`, whose index keys end in rowid
ascending, so equal-timestamp rows emit in *descending* `id` order; the
model uses that order for the unfiltered path too (there the sorter's tie
order is an unspecified detail the embedding must fix deterministically). -/
def tsDescIdDesc (a b : UsageRow) : Prop :=
  b.timestamp < a.timestamp ∨ (a.timestamp = b.timestamp ∧ b.id ≤ a.id)

instance : DecidableRel tsDescIdDesc := fun a b =>
  inferInstanceAs
    (Decidable (b.timestamp < a.timestamp ∨ (a.timestamp = b.timestamp ∧ b.id ≤ a.id)))

instance : IsTotal UsageRow tsDescIdDesc :=
  ⟨fun a b => by unfold tsDescIdDesc; omega⟩

instance : IsTrans UsageRow tsDescIdDesc :=
  ⟨fun a b c hab hbc => by
    unfold tsDescIdDesc at hab hbc ⊢
    omega⟩

/-- The optional `WHERE user_uuid = ?` filter of `get_usage_log`: Python adds
the clause only when `user_uuid` is truthy (not `None`, not `""`). -/
def matchesFilter (filt : Option String) (r : UsageRow) : Bool :=
  match filt with
  | none => true
  | some u => if u = "" then true else r.user_uuid == u

/-- `get_usage_log` (`src/db/usage.py:125-146`): total matching count, then
`SELECT * ... ORDER BY timestamp DESC LIMIT per_page OFFSET (page-1)*per_page`.
Equal-timestamp rows come out in the order of `tsDescIdDesc` (descending
`id`), which is what SQLite's reverse index scan produces on the filtered
path; the SQL itself guarantees only the timestamp-descending part. -/
def get_usage_log (ledger : UsageLedger) (page per_page : Nat)
    (filt : Option String) : List UsageRow × Nat :=
  let filtered := List.filter (matchesFilter filt) ledger
  let total := filtered.length
  let offset := (page - 1) * per_page
  (((List.insertionSort tsDescIdDesc filtered).drop offset).take per_page, total)

/-- Modelled from the spec: the *most recent* contact of a user within the
window — the `user_phone` of the user's windowed event with the greatest
timestamp (latest `id` on ties). This is the comparison definition for the
claim that `get_suspicious_users` reports the most recent contact; the code
instead computes SQL `MAX(user_phone)`. -/
def mostRecentContact (ledger : UsageLedger) (now window : Nat) (u : String) :
    Option String :=
  match List.insertionSort tsDescIdAsc
      (List.filter (fun r => r.user_uuid == u && decide (now - window ≤ r.timestamp))
        ledger) with
  | [] => none
  | r :: _ => r.user_phone

/-! ## Theorems for C4 (suspicious users) -/

/-- The per-user group of windowed rows has the size `get_user_lookup_count`
reports (the two SQL `WHERE` clauses compose). -/
theorem grouped_length_eq_lookup_count (ledger : UsageLedger) (now W : Nat)
    (u : String) :
    (List.filter (fun r => r.user_uuid == u)
      (List.filter (fun r => decide (now - W ≤ r.timestamp)) ledger)).length =
    get_user_lookup_count ledger now u W := by
  rw [List.filter_filter]
  rfl

/-- **C4 (counterexample).** The claim says each suspicious-user entry carries
the user's *most recent* contact. On a ledger where user `u` first appears
with phone `"b"` and later (greater timestamp) with phone `"a"`, the code
reports `MAX(user_phone) = "b"` while the most recent contact is `"a"`. -/
theorem suspicious_users_phone_counterexample :
    (get_suspicious_users
      [⟨1, "u", some "b", "q", 10⟩, ⟨2, "u", some "a", "q", 20⟩] 20 2 300).map
        (fun e => e.user_phone) = [some "b"] ∧
    mostRecentContact
      [⟨1, "u", some "b", "q", 10⟩, ⟨2, "u", some "a", "q", 20⟩] 20 300 "u"
      = some "a" ∧
    (some "b" : Option String) ≠ some "a" := by
  refine ⟨by decide, by decide, by decide⟩

/-- **C4 (amended).** For every threshold `T ≥ 1` and window `W`,
`get_suspicious_users` returns one entry per user whose windowed event count
is at least `T` (exactly those users and no others), each entry carrying that
user's count and SQL `MAX` of the user's non-NULL windowed contacts (not the
most recent contact), sorted by count descending. -/
theorem suspicious_users_correct (ledger : UsageLedger) (now T W : Nat)
    (hT : 1 ≤ T) :
    (∀ u : String,
      (∃ e ∈ get_suspicious_users ledger now T W, e.user_uuid = u) ↔
        T ≤ get_user_lookup_count ledger now u W) ∧
    (∀ e ∈ get_suspicious_users ledger now T W,
      e.lookup_count = get_user_lookup_count ledger now e.user_uuid W ∧
      e.user_phone = maxPhone (List.filter (fun r => r.user_uuid == e.user_uuid)
        (List.filter (fun r => decide (now - W ≤ r.timestamp)) ledger))) ∧
    List.Sorted countDesc (get_suspicious_users ledger now T W) ∧
    ((get_suspicious_users ledger now T W).map (fun e => e.user_uuid)).Nodup := by
  classical
  set inWindow := List.filter (fun r => decide (now - W ≤ r.timestamp)) ledger with hinW
  set users := (inWindow.map (fun r => r.user_uuid)).dedup with husers
  set mk : String → SuspiciousEntry := fun u =>
    let rows := List.filter (fun r => r.user_uuid == u) inWindow
    { user_uuid := u, user_phone := maxPhone rows, lookup_count := rows.length }
    with hmk
  have hres : get_suspicious_users ledger now T W =
      List.insertionSort countDesc
        (List.filter (fun e => decide (T ≤ e.lookup_count)) (users.map mk)) := rfl
  have hperm : List.Perm (get_suspicious_users ledger now T W)
      (List.filter (fun e => decide (T ≤ e.lookup_count)) (users.map mk)) := by
    rw [hres]; exact List.perm_insertionSort _ _
  have hmem : ∀ e, e ∈ get_suspicious_users ledger now T W ↔
      (e ∈ users.map mk ∧ T ≤ e.lookup_count) := by
    intro e
    rw [hperm.mem_iff, List.mem_filter, decide_eq_true_eq]
  have hmkcount : ∀ u : String, (mk u).lookup_count = get_user_lookup_count ledger now u W := by
    intro u
    simp only [hmk]
    exact grouped_length_eq_lookup_count ledger now W u
  refine ⟨?_, ?_, ?_, ?_⟩
  · intro u
    constructor
    · rintro ⟨e, he, rfl⟩
      rcases (hmem e).1 he with ⟨hemem, hcnt⟩
      rcases List.mem_map.1 hemem with ⟨u', _, rfl⟩
      rw [hmkcount u'] at hcnt
      exact hcnt
    · intro hcnt
      refine ⟨mk u, (hmem (mk u)).2 ⟨?_, by rw [hmkcount u]; exact hcnt⟩, rfl⟩
      have hpos : 1 ≤ get_user_lookup_count ledger now u W := le_trans hT hcnt
      have : 0 < (List.filter (fun r => r.user_uuid == u) inWindow).length := by
        rw [hinW, grouped_length_eq_lookup_count ledger now W u]
        omega
      rcases List.exists_mem_of_length_pos this with ⟨r, hr⟩
      rcases List.mem_filter.1 hr with ⟨hrin, hru⟩
      refine List.mem_map.2 ⟨u, ?_, rfl⟩
      rw [husers, List.mem_dedup]
      exact List.mem_map.2 ⟨r, hrin, by simpa using hru⟩
  · intro e he
    rcases (hmem e).1 he with ⟨hemem, _⟩
    rcases List.mem_map.1 hemem with ⟨u, _, rfl⟩
    exact ⟨hmkcount u, rfl⟩
  · rw [hres]
    exact List.sorted_insertionSort countDesc _
  · have h1 : List.Perm
        ((get_suspicious_users ledger now T W).map (fun e => e.user_uuid))
        ((List.filter (fun e => decide (T ≤ e.lookup_count)) (users.map mk)).map
          (fun e => e.user_uuid)) := hperm.map _
    rw [List.Perm.nodup_iff h1]
    have h2 : List.Sublist
        ((List.filter (fun e => decide (T ≤ e.lookup_count)) (users.map mk)).map
          (fun e => e.user_uuid))
        ((users.map mk).map (fun e => e.user_uuid)) :=
      (List.filter_sublist _).map _
    refine List.Nodup.sublist h2 ?_
    rw [List.map_map]
    have : ((fun e : SuspiciousEntry => e.user_uuid) ∘ mk) = id := by
      funext u
      simp [hmk]
    rw [this, List.map_id]
    exact List.nodup_dedup _

/-- Witness for `suspicious_users_correct`: the spec's end-to-end example —
20 windowed events for `uuid-heavy`, 5 for `uuid-light`, threshold 20. -/
theorem suspicious_users_correct_witness :
    (∃ e ∈ get_suspicious_users
        ((List.range 20).map (fun i => ⟨i + 1, "uuid-heavy", none, "card", 100⟩) ++
         (List.range 5).map (fun i => ⟨i + 21, "uuid-light", none, "card", 100⟩))
        200 20 300,
      e.user_uuid = "uuid-heavy") := by
  refine ((suspicious_users_correct
    ((List.range 20).map (fun i => ⟨i + 1, "uuid-heavy", none, "card", 100⟩) ++
     (List.range 5).map (fun i => ⟨i + 21, "uuid-light", none, "card", 100⟩))
    200 20 300 (by decide)).1 "uuid-heavy").2 (by decide)

/-! ## Theorems for C5 (usage-log pagination) -/

/-- 75 ledger rows for one user, ids 1..75 with increasing timestamps, as
an insertion sequence produces them. -/
def ledger75 : UsageLedger :=
  (List.range 75).map (fun i => ⟨i + 1, "uuid-1", none, "card", 100 + i⟩)

/-- **C5 (counterexample).** The claim fixes the tie-break "timestamp
descending, then insertion order (`id` ascending)". The code runs
`ORDER BY timestamp DESC` with no tie-break, and on the filtered path
SQLite's reverse scan of `idx_usage_user_ts` emits equal-timestamp rows in
*descending* `id` order: two same-second events for one user come back as
ids `[2, 1]`, not in insertion order, and the page is not sorted in the
claim's `tsDescIdAsc` order. -/
theorem usage_log_tiebreak_counterexample :
    ((get_usage_log [⟨1, "u", none, "a", 5⟩, ⟨2, "u", none, "b", 5⟩] 1 50
        (some "u")).1.map (fun r => r.id)) = [2, 1] ∧
    ([2, 1] : List Nat) ≠ [1, 2] ∧
    ¬ List.Sorted tsDescIdAsc
      (get_usage_log [⟨1, "u", none, "a", 5⟩, ⟨2, "u", none, "b", 5⟩] 1 50
        (some "u")).1 := by
  refine ⟨by decide, by decide, by decide⟩

/-- **C5 (amended).** For every page `p ≥ 1`, page size `s` and optional
user filter (a genuine filter: not `some ""`, which Python treats as
absent), `get_usage_log` returns the total count of events matching the
filter regardless of page, and the page itself is the slice skipping
`(p-1)*s` rows of the timestamp-descending ordering whose equal-timestamp
rows come in descending `id` order (the order SQLite's filtered-path index
scan produces; the SQL guarantees only the timestamp-descending part, not
the claim's insertion-order tie-break); the returned rows are sorted in
that order and all match the filter; and on 75 inserted events page 1 of
size 50 holds 50 rows with total 75 and page 2 the remaining 25. -/
theorem usage_log_pagination (ledger : UsageLedger) (p s : Nat)
    (filt : Option String) (_hp : 1 ≤ p) (hf : filt ≠ some "") :
    (get_usage_log ledger p s filt).2 =
      (List.filter (fun r => decide (filt = none ∨ filt = some r.user_uuid)) ledger).length ∧
    (get_usage_log ledger p s filt).1 =
      ((List.insertionSort tsDescIdDesc (List.filter (matchesFilter filt) ledger)).drop
        ((p - 1) * s)).take s ∧
    List.Sorted tsDescIdDesc (get_usage_log ledger p s filt).1 ∧
    (∀ r ∈ (get_usage_log ledger p s filt).1,
      filt = none ∨ filt = some r.user_uuid) ∧
    ((get_usage_log ledger75 1 50 none).1.length = 50 ∧
     (get_usage_log ledger75 1 50 none).2 = 75 ∧
     (get_usage_log ledger75 2 50 none).1.length = 25) := by
  have hmatch : ∀ r : UsageRow,
      matchesFilter filt r = decide (filt = none ∨ filt = some r.user_uuid) := by
    intro r
    match filt with
    | none => simp [matchesFilter]
    | some u =>
      have hu : u ≠ "" := by
        intro h
        exact hf (by rw [h])
      by_cases hru : r.user_uuid = u
      · simp [matchesFilter, hu, hru]
      · simp [matchesFilter, hu, hru, Ne.symm hru, fun h : u = r.user_uuid => hru h.symm]
  have hsorted : List.Sorted tsDescIdDesc
      (List.insertionSort tsDescIdDesc (List.filter (matchesFilter filt) ledger)) :=
    List.sorted_insertionSort tsDescIdDesc _
  refine ⟨?_, rfl, ?_, ?_, ?_, ?_, ?_⟩
  · show (List.filter (matchesFilter filt) ledger).length = _
    rw [List.filter_congr (fun r _ => hmatch r)]
  · show List.Sorted tsDescIdDesc
      (((List.insertionSort tsDescIdDesc (List.filter (matchesFilter filt) ledger)).drop
        ((p - 1) * s)).take s)
    exact List.Pairwise.sublist
      ((List.take_sublist _ _).trans (List.drop_sublist _ _)) hsorted
  · intro r hr
    have hr1 : r ∈ List.insertionSort tsDescIdDesc (List.filter (matchesFilter filt) ledger) :=
      ((List.take_sublist _ _).trans (List.drop_sublist _ _)).mem hr
    have hr2 : r ∈ List.filter (matchesFilter filt) ledger :=
      (List.perm_insertionSort tsDescIdDesc _).mem_iff.1 hr1
    have := (List.mem_filter.1 hr2).2
    rw [hmatch r] at this
    exact of_decide_eq_true this
  · decide
  · decide
  · decide

/-- Witness for `usage_log_pagination`: instantiated at the 75-row ledger,
page 2, size 50, no filter. -/
theorem usage_log_pagination_witness :
    (get_usage_log ledger75 2 50 none).2 =
      (List.filter (fun r => decide ((none : Option String) = none ∨
        (none : Option String) = some r.user_uuid)) ledger75).length :=
  (usage_log_pagination ledger75 2 50 none (by decide) (by decide)).1

/-! ## Suspicious-activity monitor (`src/bot/alerts.py`) -/

/-- `ALERT_COOLDOWN = 1800` (30 minutes) from `src/bot/alerts.py`. -/
def ALERT_COOLDOWN : Nat := 1800

/-- The process-local `_alert_cooldowns` dict, with `dict.get(u, 0)` built in:
every user not yet alerted maps to `0`. -/
abbrev Cooldowns : Type := String → Nat

/-- An alert notification: `(user_uuid, count)` as interpolated into the
warning message sent to the owner. -/
structure Alert where
  user_uuid : String
  count : Nat
  deriving DecidableEq

/-- `check_and_alert` (`src/bot/alerts.py:25-49`): skip while
`now - _alert_cooldowns.get(u, 0) < ALERT_COOLDOWN`; otherwise read the
user's 300-second window count from the ledger; below `SUSPICIOUS_THRESHOLD`
do nothing; else record `now` as the user's last alert time and emit exactly
one alert. (A failing `signal_sender` is caught and logged inside the
function; it affects neither the returned state nor the emitted alert, so it
is not a parameter here.) -/
def check_and_alert (ledger : UsageLedger) (cd : Cooldowns) (u : String)
    (now : Nat) : Cooldowns × List Alert :=
  if now - cd u < ALERT_COOLDOWN then (cd, [])
  else
    let count := get_user_lookup_count ledger now u SUSPICIOUS_WINDOW
    if count < SUSPICIOUS_THRESHOLD then (cd, [])
    else (fun v => if v = u then now else cd v, [⟨u, count⟩])

/-- One invocation of the monitor: the acting user, the wall-clock time of
the call, and the ledger contents at that moment. -/
structure AlertCall where
  user_uuid : String
  time : Nat
  ledger : UsageLedger

/-- A sequence of `check_and_alert` invocations, threading the cooldown map
and collecting every emitted alert in order. -/
def runCalls (cd : Cooldowns) : List AlertCall → Cooldowns × List Alert
  | [] => (cd, [])
  | c :: cs =>
    let step := check_and_alert c.ledger cd c.user_uuid c.time
    let rest := runCalls step.1 cs
    (rest.1, step.2 ++ rest.2)

/-- While every call happens strictly before `t + ALERT_COOLDOWN`, a user
whose cooldown map reads `t` receives no further alert and the recorded
time stays `t`. -/
theorem runCalls_cooldown_frame (u : String) (t : Nat) :
    ∀ (calls : List AlertCall) (cd : Cooldowns), cd u = t →
      (∀ c ∈ calls, c.time < t + ALERT_COOLDOWN) →
      (runCalls cd calls).1 u = t ∧ ∀ a ∈ (runCalls cd calls).2, a.user_uuid ≠ u := by
  intro calls
  induction calls with
  | nil =>
    intro cd hcd _
    exact ⟨hcd, by intro a ha; cases ha⟩
  | cons c cs ih =>
    intro cd hcd hcalls
    have hc : c.time < t + ALERT_COOLDOWN := hcalls c (List.mem_cons_self c cs)
    have hcs : ∀ c' ∈ cs, c'.time < t + ALERT_COOLDOWN :=
      fun c' h => hcalls c' (List.mem_cons_of_mem c h)
    by_cases hu : c.user_uuid = u
    · have hskip : check_and_alert c.ledger cd c.user_uuid c.time = (cd, []) := by
        unfold check_and_alert
        rw [if_pos (by
          rw [hu, hcd]
          have hA : ALERT_COOLDOWN = 1800 := rfl
          omega)]
      rcases ih cd hcd hcs with ⟨h1, h2⟩
      constructor
      · show (runCalls (check_and_alert c.ledger cd c.user_uuid c.time).1 cs).1 u = t
        rw [hskip]
        exact h1
      · intro a ha
        have : a ∈ ((check_and_alert c.ledger cd c.user_uuid c.time).2 ++
            (runCalls (check_and_alert c.ledger cd c.user_uuid c.time).1 cs).2) := ha
        rw [hskip] at this
        exact h2 a (by simpa using this)
    · have hstate : (check_and_alert c.ledger cd c.user_uuid c.time).1 u = cd u := by
        unfold check_and_alert
        by_cases h1 : c.time - cd c.user_uuid < ALERT_COOLDOWN
        · rw [if_pos h1]
        · rw [if_neg h1]
          by_cases h2 : get_user_lookup_count c.ledger c.time c.user_uuid
              SUSPICIOUS_WINDOW < SUSPICIOUS_THRESHOLD
          · rw [if_pos h2]
          · rw [if_neg h2]
            show (if u = c.user_uuid then c.time else cd u) = cd u
            rw [if_neg (fun h => hu h.symm)]
      have halerts : ∀ a ∈ (check_and_alert c.ledger cd c.user_uuid c.time).2,
          a.user_uuid ≠ u := by
        unfold check_and_alert
        by_cases h1 : c.time - cd c.user_uuid < ALERT_COOLDOWN
        · rw [if_pos h1]; intro a ha; cases ha
        · rw [if_neg h1]
          by_cases h2 : get_user_lookup_count c.ledger c.time c.user_uuid
              SUSPICIOUS_WINDOW < SUSPICIOUS_THRESHOLD
          · rw [if_pos h2]; intro a ha; cases ha
          · rw [if_neg h2]
            intro a ha
            rcases List.mem_singleton.1 ha with rfl
            exact hu
      have hcd' : (check_and_alert c.ledger cd c.user_uuid c.time).1 u = t := by
        rw [hstate, hcd]
      rcases ih _ hcd' hcs with ⟨h1, h2⟩
      refine ⟨h1, ?_⟩
      intro a ha
      rcases List.mem_append.1 ha with h | h
      · exact halerts a h
      · exact h2 a h

/-! ## Theorems for C1 (alert cooldown) -/

/-- **C1.** Once the monitor has recorded an alert for user `u` at time `t`
(cooldown map reads `t`), no call to `check_and_alert` — for any user, with
any ledger contents, even with `u`'s window count at or above the threshold —
emits another alert for `u` at a time `t'` with `t' - t < 1800`, and the
recorded time stays `t` throughout; the first call at `t' ≥ t + 1800` whose
300-second window count is at least 20 emits exactly one alert (carrying `u`
and that count) and records `t'` as the new alert time. -/
theorem alert_cooldown_and_refire (cd : Cooldowns) (u : String) (t : Nat)
    (calls : List AlertCall) (ledgerAfter : UsageLedger) (tAfter : Nat)
    (hcd : cd u = t)
    (hcalls : ∀ c ∈ calls, c.time < t + ALERT_COOLDOWN)
    (ht : t + ALERT_COOLDOWN ≤ tAfter)
    (hcount : SUSPICIOUS_THRESHOLD ≤
      get_user_lookup_count ledgerAfter tAfter u SUSPICIOUS_WINDOW) :
    (∀ a ∈ (runCalls cd calls).2, a.user_uuid ≠ u) ∧
    (runCalls cd calls).1 u = t ∧
    (check_and_alert ledgerAfter (runCalls cd calls).1 u tAfter).2 =
      [⟨u, get_user_lookup_count ledgerAfter tAfter u SUSPICIOUS_WINDOW⟩] ∧
    (check_and_alert ledgerAfter (runCalls cd calls).1 u tAfter).1 u = tAfter := by
  rcases runCalls_cooldown_frame u t calls cd hcd hcalls with ⟨hstate, halerts⟩
  have hfire : ¬ tAfter - (runCalls cd calls).1 u < ALERT_COOLDOWN := by
    rw [hstate]
    omega
  have hcnt : ¬ get_user_lookup_count ledgerAfter tAfter u SUSPICIOUS_WINDOW <
      SUSPICIOUS_THRESHOLD := by omega
  refine ⟨halerts, hstate, ?_, ?_⟩
  · unfold check_and_alert
    rw [if_neg hfire, if_neg hcnt]
  · unfold check_and_alert
    rw [if_neg hfire, if_neg hcnt]
    show (if u = u then tAfter else (runCalls cd calls).1 u) = tAfter
    rw [if_pos rfl]

/-- Cooldown map in which `"u1"` was last alerted at time 100. -/
def cooldownsC1 : Cooldowns := fun v => if v = "u1" then 100 else 0

/-- A ledger holding 20 lookups by `"u1"` at time 1700 — at or above the
threshold inside the 300-second window ending at 1900. -/
def ledgerC1 : UsageLedger :=
  (List.range 20).map (fun i => ⟨i + 1, "u1", none, "card", 1700⟩)

/-- One monitor invocation for `"u1"` at time 200 — inside the cooldown. -/
def callsC1 : List AlertCall := [⟨"u1", 200, ledgerC1⟩]

/-- Witness for `alert_cooldown_and_refire`: the in-cooldown call at time 200
(with 20 windowed lookups on file) emits nothing; the call at 1900 emits the
single alert. -/
theorem alert_cooldown_and_refire_witness :
    (∀ a ∈ (runCalls cooldownsC1 callsC1).2, a.user_uuid ≠ "u1") ∧
    (check_and_alert ledgerC1 (runCalls cooldownsC1 callsC1).1 "u1" 1900).2 =
      [⟨"u1", get_user_lookup_count ledgerC1 1900 "u1" SUSPICIOUS_WINDOW⟩] := by
  have h := alert_cooldown_and_refire cooldownsC1 "u1" 100 callsC1 ledgerC1 1900
    rfl
    (by
      intro c hc
      rcases List.mem_singleton.1 hc with rfl
      decide)
    (by decide)
    (by decide)
  exact ⟨h.1, h.2.2.1⟩

/-! ## Scryfall client (`src/bot/scryfall.py`) -/

/-- Python `str.lower()` on its ASCII fragment. -/
def pyLower (s : String) : String := ⟨s.data.map Char.toLower⟩

/-- Python truthiness for an optional string: `None` and `""` are falsy
(`x or default`, `if x:`). -/
def truthyOpt : Option String → Option String
  | none => none
  | some s => if s = "" then none else some s

/-- A failed fetch: a Scryfall error object (`ScryfallError`, raised by
`_get`) or an `httpx` timeout — both propagate out of the client uncaught. -/
inductive FetchErr where
  | scry (status : Nat) (details : String)
  | timeout
  deriving DecidableEq

/-- The endpoint `_get` is pointed at on a cache miss. -/
inductive Req where
  | direct (setCode collector : String)
  | named (fuzzy : String) (setCode : Option String)
  | rulings (cardId : String)
  deriving DecidableEq

/-- The cache key of `get_card_by_name`:
`f"named:{name.lower()}:{set_code or ''}:{collector_number or ''}"`.
Note the set code is *not* lowercased in the key (only in the request). -/
def cacheKeyNamed (name : String) (setCode collector : Option String) : String :=
  "named:" ++ pyLower name ++ ":" ++ setCode.getD "" ++ ":" ++ collector.getD ""

/-- `get_card_by_name` (`src/bot/scryfall.py:67-91`): serve a truthy cached
payload; otherwise fetch (direct set/collector endpoint when both are truthy,
fuzzy-named endpoint otherwise), propagate a fetch error unchanged, and on
success write the payload through `set_cached` before returning it. The
`Bool` component records whether the external resolver was called. -/
def get_card_by_name (store : CacheStore) (now : Nat) (name : String)
    (setCode collector : Option String)
    (resolver : Req → Except FetchErr Payload) :
    Except FetchErr Payload × CacheStore × Bool :=
  let key := cacheKeyNamed name setCode collector
  let hit := match get_cached store key now with
    | some cached => if cached.isEmpty then none else some cached
    | none => none
  match hit with
  | some cached => (Except.ok cached, store, false)
  | none =>
    let req := match truthyOpt collector, truthyOpt setCode with
      | some cn, some sc => Req.direct (pyLower sc) cn
      | _, _ => Req.named name ((truthyOpt setCode).map pyLower)
    match resolver req with
    | Except.error e => (Except.error e, store, true)
    | Except.ok data => (Except.ok data, set_cached store key data now, true)

/-- `cached["data"]` on the stored rulings object: association-list lookup
(`none` models the `KeyError` on a missing field). -/
def lookupField (p : Payload) (f : String) : Option String :=
  (List.find? (fun kv => kv.1 == f) p).map (fun kv => kv.2)

/-- `get_rulings` (`src/bot/scryfall.py:94-103`): like `get_card_by_name`,
keyed `f"rulings:{card_id}"`; both the cache hit and the fresh fetch return
the payload's `"data"` field. -/
def get_rulings (store : CacheStore) (now : Nat) (cardId : String)
    (resolver : Req → Except FetchErr Payload) :
    Except FetchErr (Option String) × CacheStore × Bool :=
  let key := "rulings:" ++ cardId
  let hit := match get_cached store key now with
    | some cached => if cached.isEmpty then none else some cached
    | none => none
  match hit with
  | some cached => (Except.ok (lookupField cached "data"), store, false)
  | none =>
    match resolver (Req.rulings cardId) with
    | Except.error e => (Except.error e, store, true)
    | Except.ok data => (Except.ok (lookupField data "data"), set_cached store key data now, true)

/-! ## Theorems for C8 (fetch errors propagate, no cache write) -/

/-- **C8.** On a cache miss (no row, expired row, or falsy payload), if the
resolver fails — Scryfall error object (not found / ambiguous / rate limited)
or timeout — `get_card_by_name` returns exactly that error and the cache is
returned unchanged: no write happens for any key. -/
theorem card_fetch_error_propagates (store : CacheStore) (now : Nat)
    (name : String) (setCode collector : Option String) (e : FetchErr)
    (resolver : Req → Except FetchErr Payload)
    (hmiss : get_cached store (cacheKeyNamed name setCode collector) now = none ∨
      get_cached store (cacheKeyNamed name setCode collector) now = some [])
    (herr : ∀ r, resolver r = Except.error e) :
    get_card_by_name store now name setCode collector resolver =
      (Except.error e, store, true) := by
  simp only [get_card_by_name]
  rcases hmiss with h | h
  · rw [h, herr]
  · rw [h, herr]
    rfl

/-- Witness for `card_fetch_error_propagates`: empty cache, resolver raising
a 404 Scryfall error. -/
theorem card_fetch_error_propagates_witness :
    get_card_by_name [] 1000 "Bolt" none none
        (fun _ => Except.error (FetchErr.scry 404 "No card found")) =
      (Except.error (FetchErr.scry 404 "No card found"), [], true) :=
  card_fetch_error_propagates [] 1000 "Bolt" none none
    (FetchErr.scry 404 "No card found") _ (Or.inl rfl) (fun _ => rfl)

/-! ## Theorems for C10 (falsy cached payloads are treated as misses) -/

/-- **C10.** A live, unexpired cache row holding the falsy payload `{}` is
treated as a miss: `get_card_by_name` and `get_rulings` call the resolver
again and overwrite the row; and whenever either function serves from the
cache (resolver not called), the served payload is truthy (non-empty). -/
theorem falsy_cache_entry_refetched (store : CacheStore) (now : Nat)
    (name : String) (setCode collector : Option String) (cardId : String)
    (d : Payload) (resolver : Req → Except FetchErr Payload)
    (hcard : get_cached store (cacheKeyNamed name setCode collector) now = some [])
    (hrul : get_cached store ("rulings:" ++ cardId) now = some [])
    (hres : ∀ r, resolver r = Except.ok d) :
    get_card_by_name store now name setCode collector resolver =
      (Except.ok d, set_cached store (cacheKeyNamed name setCode collector) d now, true) ∧
    get_rulings store now cardId resolver =
      (Except.ok (lookupField d "data"),
        set_cached store ("rulings:" ++ cardId) d now, true) ∧
    (∀ (store₂ : CacheStore) (p : Payload) (s₂ : CacheStore),
      get_card_by_name store₂ now name setCode collector resolver =
        (Except.ok p, s₂, false) → p ≠ []) ∧
    (∀ store₂ : CacheStore, (get_rulings store₂ now cardId resolver).2.2 = false →
      ∃ c : Payload, get_cached store₂ ("rulings:" ++ cardId) now = some c ∧ c ≠ []) := by
  refine ⟨?_, ?_, ?_, ?_⟩
  · simp only [get_card_by_name]
    rw [hcard, hres]
    rfl
  · simp only [get_rulings]
    rw [hrul, hres]
    rfl
  · intro store₂ p s₂ h
    simp only [get_card_by_name] at h
    rcases hc : get_cached store₂ (cacheKeyNamed name setCode collector) now with _ | c
    · simp only [hc] at h
      rcases hr : resolver (match truthyOpt collector, truthyOpt setCode with
        | some cn, some sc => Req.direct (pyLower sc) cn
        | _, _ => Req.named name ((truthyOpt setCode).map pyLower)) with e | data
      · rw [hr] at h; cases h
      · rw [hr] at h; cases h
    · simp only [hc] at h
      rcases hemp : c.isEmpty with _ | _
      · simp only [hemp, Bool.false_eq_true, if_false] at h
        have hp : p = c := by
          have := congrArg (fun x => x.1) h
          simpa using this.symm
        rw [hp]
        intro hnil
        rw [hnil] at hemp
        cases hemp
      · simp only [hemp, if_true] at h
        rcases hr : resolver (match truthyOpt collector, truthyOpt setCode with
          | some cn, some sc => Req.direct (pyLower sc) cn
          | _, _ => Req.named name ((truthyOpt setCode).map pyLower)) with e | data
        · rw [hr] at h; simp at h
        · rw [hr] at h; simp at h
  · intro store₂ h
    simp only [get_rulings] at h
    rcases hc : get_cached store₂ ("rulings:" ++ cardId) now with _ | c
    · simp only [hc] at h
      rcases hr : resolver (Req.rulings cardId) with e | data
      · rw [hr] at h; cases h
      · rw [hr] at h; cases h
    · simp only [hc] at h
      rcases hemp : c.isEmpty with _ | _
      · refine ⟨c, rfl, ?_⟩
        intro hnil
        rw [hnil] at hemp
        cases hemp
      · simp only [hemp, if_true] at h
        rcases hr : resolver (Req.rulings cardId) with e | data
        · rw [hr] at h; cases h
        · rw [hr] at h; cases h

/-- Witness for `falsy_cache_entry_refetched`: both keys live with `{}`
payloads; the card lookup refetches and overwrites. -/
theorem falsy_cache_entry_refetched_witness :
    get_card_by_name [⟨"named:bolt::", [], 50⟩, ⟨"rulings:abc", [], 50⟩] 100 "bolt"
        none none (fun _ => Except.ok [("name", "Bolt")]) =
      (Except.ok [("name", "Bolt")],
        set_cached [⟨"named:bolt::", [], 50⟩, ⟨"rulings:abc", [], 50⟩]
          (cacheKeyNamed "bolt" none none) [("name", "Bolt")] 100, true) :=
  (falsy_cache_entry_refetched [⟨"named:bolt::", [], 50⟩, ⟨"rulings:abc", [], 50⟩]
    100 "bolt" none none "abc" [("name", "Bolt")] (fun _ => Except.ok [("name", "Bolt")])
    (by decide) (by decide) (fun _ => rfl)).1

/-! ## Ban registry (`src/db/usage.py`) and message handler (`src/bot/command.py`) -/

/-- The `banned_users` table, reduced to its key column (`user_uuid`). -/
abbrev BanTable : Type := List String

/-- `is_banned` (`src/db/usage.py:57-63`):
`SELECT 1 FROM banned_users WHERE user_uuid = ?` is non-empty. -/
def is_banned (banned : BanTable) (user_uuid : String) : Bool :=
  banned.contains user_uuid

/-- ASCII whitespace for the Python `str.strip()` model. -/
def isSpaceChar (c : Char) : Bool :=
  c == ' ' || c == '\t' || c == '\n' || c == '\r'

/-- Python `str.strip()` on its ASCII fragment. -/
def pyStrip (s : String) : String :=
  ⟨((s.data.dropWhile isSpaceChar).reverse.dropWhile isSpaceChar).reverse⟩

/-- `HELP_TEXT` from `src/bot/command.py`. -/
def helpText : String :=
  "MTG Signal Bot - Card Lookup\n\nBracket syntax (works in groups and DMs):\n  [[Card Name]]         Oracle text + image\n  [[!Card Name]]        Full card image\n  [[?Card Name]]        Rulings\n  [[#Card Name]]        Legalities\n  [[$Card Name]]        Prices\n  [[Card|SET]]          Specific set printing\n  [[Card|SET|NUM]]      Set + collector number\n\nShorthand (entire message):\n  .Card Name            Same as [[Card Name]]\n  .!Card Name           Same as [[!Card Name]]\n\nFuzzy matching and partial names are supported."

/-- A parsed `[[...]]` query as the handler uses it: its cleaned `name` (for
user-facing messages) and the `raw` bracket text (logged). -/
structure CardQuery where
  name : String
  raw : String
  deriving DecidableEq

/-- What `_handle_query` does for one query: the reply is sent (`ok`), a
`ScryfallError` is raised, or some other exception occurs. -/
inductive FetchOutcome where
  | ok (reply : String)
  | scryfall (details : String)
  | failure
  deriving DecidableEq

/-- The environment of one query in one `handle` call: the fetch/reply
outcome, and whether the storage layer raises inside `log_usage` or inside
`check_and_alert` (its ledger read) for this query. -/
structure QueryEnv where
  fetch : FetchOutcome
  logFails : Bool
  alertFails : Bool
  deriving DecidableEq

/-- `f"Something went wrong looking up '{query.name}'."` -/
def genericMsg (name : String) : String :=
  "Something went wrong looking up \x27" ++ name ++ "\x27."

/-- `f"Could not find card '{query.name}': {e.details}"` -/
def notFoundMsg (name details : String) : String :=
  "Could not find card \x27" ++ name ++ "\x27: " ++ details

/-- One iteration of the query loop in `MTGCommand.handle`
(`src/bot/command.py:106-122`): `_handle_query` sends the reply (or raises);
on success `log_usage` appends the usage row (or raises); then, when a
sender and owner phone are configured, `check_and_alert` runs (its ledger
read may raise). A `ScryfallError` is answered with the not-found message;
any other exception — including storage errors from `log_usage` or
`check_and_alert` — is answered with the generic message. Returns the
messages sent to the chat and the usage rows appended, in order. -/
def processQuery (uuid : String) (phone : Option String) (haveSender : Bool)
    (q : CardQuery) (env : QueryEnv) :
    List String × List (String × Option String × String) :=
  match env.fetch with
  | FetchOutcome.ok reply =>
    if env.logFails then ([reply, genericMsg q.name], [])
    else if haveSender && env.alertFails then
      ([reply, genericMsg q.name], [(uuid, phone, q.raw)])
    else ([reply], [(uuid, phone, q.raw)])
  | FetchOutcome.scryfall details => ([notFoundMsg q.name details], [])
  | FetchOutcome.failure => ([genericMsg q.name], [])

/-- The query loop of `handle`: queries processed in order, sends and usage
rows concatenated (one query's failure never stops the rest). -/
def handleQueries (uuid : String) (phone : Option String) (haveSender : Bool) :
    List (CardQuery × QueryEnv) →
      List String × List (String × Option String × String)
  | [] => ([], [])
  | (q, env) :: rest =>
    let step := processQuery uuid phone haveSender q env
    let after := handleQueries uuid phone haveSender rest
    (step.1 ++ after.1, step.2 ++ after.2)

/-- `MTGCommand.handle` (`src/bot/command.py:89-122`): empty text → nothing;
`text.strip().lower() == "/help"` → help text (before any ban check); no
parsed queries → nothing; then the ban gate (`source_uuid or "unknown"`),
and only then the query loop. Parsing is abstracted: `queries` is the
result of `parse_queries(text)` together with each query's environment. -/
def handle (text : String) (banned : BanTable)
    (sourceUuid sourcePhone : Option String)
    (queries : List (CardQuery × QueryEnv)) (haveSender : Bool) :
    List String × List (String × Option String × String) :=
  if text = "" then ([], [])
  else if pyLower (pyStrip text) = "/help" then ([helpText], [])
  else if queries.isEmpty then ([], [])
  else if is_banned banned ((truthyOpt sourceUuid).getD "unknown") then ([], [])
  else handleQueries ((truthyOpt sourceUuid).getD "unknown") sourcePhone haveSender queries

/-! ## Theorems for C9 (banned users are ignored) -/

set_option maxRecDepth 8192 in
/-- **C9 (counterexample).** A banned sender's `/help` message is answered
with the help text (the `/help` branch runs before the ban gate), so a
banned user's message can produce a response. -/
theorem banned_user_help_counterexample :
    is_banned ["u1"] "u1" = true ∧
    handle "/help" ["u1"] (some "u1") none [] true = ([helpText], []) ∧
    ([helpText] : List String) ≠ [] := by
  refine ⟨by decide, by decide, by simp⟩

/-- **C9 (amended).** For every incoming message that is not the `/help`
command, a banned sender receives no reply and no usage row is appended —
exactly as if the message had never arrived. (`/help` is answered before
the ban check.) -/
theorem banned_user_ignored (text : String) (banned : BanTable)
    (sourceUuid sourcePhone : Option String)
    (queries : List (CardQuery × QueryEnv)) (haveSender : Bool)
    (hban : is_banned banned ((truthyOpt sourceUuid).getD "unknown") = true)
    (hnothelp : pyLower (pyStrip text) ≠ "/help") :
    handle text banned sourceUuid sourcePhone queries haveSender = ([], []) := by
  unfold handle
  by_cases h0 : text = ""
  · rw [if_pos h0]
  · rw [if_neg h0, if_neg hnothelp]
    by_cases hq : queries.isEmpty
    · rw [if_pos hq]
    · rw [if_neg hq, if_pos hban]

/-- Witness for `banned_user_ignored`: a banned user's card lookup is
dropped entirely. -/
theorem banned_user_ignored_witness :
    handle "[[bolt]]" ["u1"] (some "u1") none
      [(⟨"bolt", "bolt"⟩, ⟨FetchOutcome.ok "CARD", false, false⟩)] true = ([], []) :=
  banned_user_ignored "[[bolt]]" ["u1"] (some "u1") none
    [(⟨"bolt", "bolt"⟩, ⟨FetchOutcome.ok "CARD", false, false⟩)] true
    (by decide) (by decide)

/-! ## Theorems for C3 (instrumentation errors and the user-visible reply) -/

/-- **C3 (counterexample).** With the reply already sent, a storage error in
`log_usage` makes the handler send an *additional* generic failure message:
the user-visible response differs from the error-free run, refuting the
claim that it is unchanged. -/
theorem instrumentation_error_extra_message_counterexample :
    (handle "[[bolt]]" [] (some "u") none
      [(⟨"bolt", "bolt"⟩, ⟨FetchOutcome.ok "CARD", true, false⟩)] true).1 =
      ["CARD", genericMsg "bolt"] ∧
    (handle "[[bolt]]" [] (some "u") none
      [(⟨"bolt", "bolt"⟩, ⟨FetchOutcome.ok "CARD", false, false⟩)] true).1 =
      ["CARD"] ∧
    (["CARD", genericMsg "bolt"] : List String) ≠ ["CARD"] := by
  refine ⟨by decide, by decide, by decide⟩

/-- **C3 (amended).** When the fetch and reply succeeded and a storage error
then occurs in `log_usage` or in `check_and_alert`, the already-sent reply
stands (it is still the first message) and the handler sends one additional
generic failure message for that query; the usage row is appended exactly
when `log_usage` itself did not fail; and the remaining queries of the
message are still processed (the loop isolates failures per query). -/
theorem instrumentation_error_isolated (uuid : String) (phone : Option String)
    (haveSender : Bool) (q : CardQuery) (env : QueryEnv) (reply : String)
    (hok : env.fetch = FetchOutcome.ok reply)
    (herr : env.logFails = true ∨ (haveSender = true ∧ env.alertFails = true)) :
    (processQuery uuid phone haveSender q env).1 = [reply, genericMsg q.name] ∧
    (processQuery uuid phone haveSender q ⟨FetchOutcome.ok reply, false, false⟩).1 =
      [reply] ∧
    (processQuery uuid phone haveSender q env).2 =
      (if env.logFails then [] else [(uuid, phone, q.raw)]) ∧
    (∀ rest, (handleQueries uuid phone haveSender ((q, env) :: rest)).1 =
      (processQuery uuid phone haveSender q env).1 ++
        (handleQueries uuid phone haveSender rest).1) := by
  refine ⟨?_, ?_, ?_, fun rest => rfl⟩
  · by_cases hlf : env.logFails
    · simp [processQuery, hok, hlf]
    · rcases herr with h | ⟨h1, h2⟩
      · exact absurd h hlf
      · simp [processQuery, hok, hlf, h1, h2]
  · simp [processQuery]
  · by_cases hlf : env.logFails
    · simp [processQuery, hok, hlf]
    · rcases herr with h | ⟨h1, h2⟩
      · exact absurd h hlf
      · simp [processQuery, hok, hlf, h1, h2]

/-- Witness for `instrumentation_error_isolated`: `log_usage` fails after a
successful reply. -/
theorem instrumentation_error_isolated_witness :
    (processQuery "u" none true ⟨"bolt", "bolt"⟩
      ⟨FetchOutcome.ok "CARD", true, false⟩).1 = ["CARD", genericMsg "bolt"] :=
  (instrumentation_error_isolated "u" none true ⟨"bolt", "bolt"⟩
    ⟨FetchOutcome.ok "CARD", true, false⟩ "CARD" rfl (Or.inl rfl)).1

/-! ## Cache search (`src/db/cache.py`, `search_cache`) and SQL LIKE -/

/-- SQLite's default LIKE case folding: ASCII letters only (`Char.toLower`
maps exactly the ASCII range). -/
def charLower (c : Char) : Char := c.toLower

/-- SQLite `LIKE` pattern matching: `%` matches any character sequence, `_`
any single character, every other pattern character matches
ASCII-case-insensitively. -/
def likeMatch : List Char → List Char → Bool
  | [], s => s.isEmpty
  | p :: ps, s =>
    if p = '%' then s.tails.any (fun t => likeMatch ps t)
    else
      match s with
      | [] => false
      | c :: cs =>
        if p = '_' then likeMatch ps cs
        else (charLower p == charLower c) && likeMatch ps cs

/-- `search_cache` (`src/db/cache.py:82-90`):
`SELECT cache_key, cached_at FROM card_cache WHERE cache_key LIKE ? LIMIT 100`
with the pattern `f"%{prefix}%"`; rows in table order. -/
def search_cache (store : CacheStore) (s : String) : List (String × Nat) :=
  ((List.filter (fun r => likeMatch ('%' :: (s.data ++ ['%'])) r.cache_key.data)
    store).take 100).map (fun r => (r.cache_key, r.cached_at))

/-- Boolean prefix test on character lists (for the substring test below). -/
def isPre : List Char → List Char → Bool
  | [], _ => true
  | _ :: _, [] => false
  | a :: as, b :: bs => a == b && isPre as bs

/-- Boolean substring (contiguous) test on character lists. -/
def isSub (needle hay : List Char) : Bool :=
  hay.tails.any (fun t => isPre needle t)

theorem isPre_iff (n : List Char) : ∀ h : List Char,
    isPre n h = true ↔ ∃ t, n ++ t = h := by
  induction n with
  | nil =>
    intro h
    simp [isPre]
  | cons a as ih =>
    intro h
    cases h with
    | nil =>
      simp [isPre]
    | cons b bs =>
      simp only [isPre, Bool.and_eq_true, beq_iff_eq, List.cons_append, List.cons.injEq]
      rw [ih bs]
      constructor
      · rintro ⟨rfl, t, rfl⟩
        exact ⟨t, rfl, rfl⟩
      · rintro ⟨t, rfl, rfl⟩
        exact ⟨rfl, t, rfl⟩

theorem isSub_iff (n h : List Char) :
    isSub n h = true ↔ ∃ a b, h = a ++ n ++ b := by
  unfold isSub
  rw [List.any_eq_true]
  constructor
  · rintro ⟨t, ht, hpre⟩
    rw [List.mem_tails] at ht
    rcases ht with ⟨a, rfl⟩
    rcases (isPre_iff n t).1 hpre with ⟨b, rfl⟩
    exact ⟨a, b, by simp⟩
  · rintro ⟨a, b, rfl⟩
    refine ⟨n ++ b, ?_, ?_⟩
    · rw [List.mem_tails]
      exact ⟨a, by simp⟩
    · exact (isPre_iff n (n ++ b)).2 ⟨b, rfl⟩

theorem likeMatch_pct (ps s : List Char) :
    likeMatch ('%' :: ps) s = s.tails.any (fun t => likeMatch ps t) := by
  simp [likeMatch]

theorem likeMatch_pct_single (v : List Char) : likeMatch ['%'] v = true := by
  rw [likeMatch_pct, List.any_eq_true]
  refine ⟨[], ?_, by simp [likeMatch]⟩
  rw [List.mem_tails]
  exact ⟨v, by simp⟩

theorem likeMatch_plain_append :
    ∀ (ps : List Char), (∀ c ∈ ps, c ≠ '%' ∧ c ≠ '_') → ∀ (qs s : List Char),
      (likeMatch (ps ++ qs) s = true ↔
        ∃ u v, s = u ++ v ∧ u.map charLower = ps.map charLower ∧
          likeMatch qs v = true) := by
  intro ps
  induction ps with
  | nil =>
    intro _ qs s
    simp only [List.nil_append, List.map_nil]
    constructor
    · intro h
      exact ⟨[], s, rfl, by simp, h⟩
    · rintro ⟨u, v, rfl, hu, hv⟩
      have hnil : u = [] := by
        have := congrArg List.length hu
        simp at this
        exact this
      subst hnil
      simpa using hv
  | cons p ps ih =>
    intro hps qs s
    obtain ⟨hp1, hp2⟩ := hps p (List.mem_cons_self _ _)
    have hps' : ∀ c ∈ ps, c ≠ '%' ∧ c ≠ '_' :=
      fun c hc => hps c (List.mem_cons_of_mem _ hc)
    cases s with
    | nil =>
      simp only [List.cons_append, likeMatch, if_neg hp1]
      constructor
      · intro h
        cases h
      · rintro ⟨u, v, hs, hu, _⟩
        cases u with
        | nil => simp at hu
        | cons c u => simp at hs
    | cons c cs =>
      have hstep : likeMatch ((p :: ps) ++ qs) (c :: cs) =
          ((charLower p == charLower c) && likeMatch (ps ++ qs) cs) := by
        simp [likeMatch, hp1, hp2]
      rw [hstep, Bool.and_eq_true, beq_iff_eq, ih hps' qs cs]
      constructor
      · rintro ⟨hcl, u, v, rfl, hu, hv⟩
        exact ⟨c :: u, v, rfl, by simp [hu, hcl], hv⟩
      · rintro ⟨u, v, hs, hu, hv⟩
        cases u with
        | nil => simp at hu
        | cons c' u' =>
          obtain ⟨hc', hcs⟩ : c' = c ∧ cs = u' ++ v := by
            simp only [List.cons_append, List.cons.injEq] at hs
            exact ⟨hs.1.symm, hs.2⟩
          subst hc'
          simp only [List.map_cons, List.cons.injEq] at hu
          exact ⟨hu.1.symm, u', v, hcs, hu.2, hv⟩

/-- The `%s%` pattern of `search_cache`, for a wildcard-free `s`, matches a
key exactly when the ASCII-lowercased `s` is a contiguous substring of the
ASCII-lowercased key. -/
theorem likeMatch_infix_pattern (s0 k : List Char)
    (hs : ∀ c ∈ s0, c ≠ '%' ∧ c ≠ '_') :
    likeMatch ('%' :: (s0 ++ ['%'])) k =
      isSub (s0.map charLower) (k.map charLower) := by
  have hbool : ∀ a b : Bool, (a = true ↔ b = true) → a = b := by decide
  apply hbool
  rw [likeMatch_pct, List.any_eq_true, isSub_iff]
  constructor
  · rintro ⟨t, ht, hmatch⟩
    rw [List.mem_tails] at ht
    rcases ht with ⟨a, rfl⟩
    rcases (likeMatch_plain_append s0 hs ['%'] t).1 hmatch with ⟨u, v, rfl, hu, _⟩
    exact ⟨a.map charLower, v.map charLower, by simp [hu]⟩
  · rintro ⟨A, B, hk⟩
    refine ⟨k.drop (A.length), ?_, ?_⟩
    · rw [List.mem_tails]
      exact ⟨k.take (A.length), List.take_append_drop _ _⟩
    · rw [likeMatch_plain_append s0 hs ['%'] _]
      refine ⟨(k.drop A.length).take s0.length, (k.drop A.length).drop s0.length,
        (List.take_append_drop _ _).symm, ?_, likeMatch_pct_single _⟩
      rw [List.append_assoc] at hk
      rw [List.map_take, List.map_drop, hk]
      rw [List.drop_left]
      rw [List.take_left' (by simp)]

/-! ## Theorems for C7 (cache search semantics) -/

/-- **C7 (counterexample).** `search_cache` is not plain substring search:
SQL `LIKE` is ASCII-case-insensitive, so searching `"lea"` returns the key
`"named:bolt:LEA:"` even though that key does not contain `"lea"` as a
substring. (Uppercase keys are reachable: `get_card_by_name` interpolates
the set code into the key without lowercasing it.) -/
theorem search_cache_substring_counterexample :
    search_cache [⟨"named:bolt:LEA:", [], 0⟩] "lea" = [("named:bolt:LEA:", 0)] ∧
    isSub "lea".data "named:bolt:LEA:".data = false := by
  exact ⟨by decide, by decide⟩

/-- **C7 (amended).** For every search string `s` free of the LIKE wildcards
`%` and `_`, `search_cache` returns exactly the entries whose key contains
`s` as a substring *up to ASCII case*, as `(key, cached_at)` pairs, capped
at 100 results, in table order — deterministic for a fixed `s` and table. -/
theorem search_cache_ci_substring (store : CacheStore) (s : String)
    (hs : ∀ c ∈ s.data, c ≠ '%' ∧ c ≠ '_') :
    search_cache store s =
      ((List.filter
        (fun r => isSub (s.data.map charLower) (r.cache_key.data.map charLower))
        store).take 100).map (fun r => (r.cache_key, r.cached_at)) := by
  unfold search_cache
  have : List.filter
      (fun r => likeMatch ('%' :: (s.data ++ ['%'])) r.cache_key.data) store =
    List.filter
      (fun r => isSub (s.data.map charLower) (r.cache_key.data.map charLower)) store := by
    apply List.filter_congr
    intro r _
    exact likeMatch_infix_pattern s.data r.cache_key.data hs
  rw [this]

/-- Witness for `search_cache_ci_substring`: the `"lea"` search over the
uppercase-set-code key. -/
theorem search_cache_ci_substring_witness :
    search_cache [⟨"named:bolt:LEA:", [], 0⟩] "lea" =
      ((List.filter
        (fun r => isSub ("lea".data.map charLower) (r.cache_key.data.map charLower))
        ([⟨"named:bolt:LEA:", [], 0⟩] : CacheStore)).take 100).map
          (fun r => (r.cache_key, r.cached_at)) :=
  search_cache_ci_substring [⟨"named:bolt:LEA:", [], 0⟩] "lea" (by decide)
